import Mathlib

/-
Verification of the discord-bridge core against its specification.

The development shallowly embeds the three source modules:
  config.py   - EventRoute, HTTPConfig, BridgeConfig.get_routes_for_event
  router.py   - HTTPForwarder.forward_event, EventRouter.handle_event
  gateway.py  - GatewayClient state and the _handle_event frame handler,
                the identify/resume choice of _connect_and_run, and the
                heartbeat frame construction.

Python JSON values are modelled by the inductive type Json; nullable
fields are Option; Python truthiness is the function Json.truthy.
Network effects (HTTP responses, sleeps, sends) are made explicit as
data returned by the embedded functions.
-/

/-- JSON values as handled by the Python code (dicts are association
lists preserving insertion order, numbers restricted to integers since
the protocol fields involved are integral). -/
inductive Json where
  | null : Json
  | bool (b : Bool) : Json
  | num (n : Int) : Json
  | str (s : String) : Json
  | arr (elems : List Json) : Json
  | obj (fields : List (String × Json)) : Json
deriving Repr

/-- Python truthiness of a JSON value: None, False, 0, empty string,
empty list and empty dict are falsy, everything else truthy. -/
def Json.truthy : Json → Bool
  | .null => false
  | .bool b => b
  | .num n => n != 0
  | .str s => s != ""
  | .arr elems => !elems.isEmpty
  | .obj fields => !fields.isEmpty

/-- dict.get on a JSON object: first binding of the key, none when the
key is absent or the value is not an object. -/
def Json.lookup : Json → String → Option Json
  | .obj fields, key => fields.lookup key
  | _, _ => none

/-- Python truthiness of an optional JSON value (None is falsy). -/
def optTruthy : Option Json → Bool
  | none => false
  | some j => j.truthy

/-! ## Configuration (config.py) -/

/-- EventRoute from config.py: event name, endpoint URLs, enabled flag.
The pydantic model does not impose a minimum length on endpoints. -/
structure EventRoute where
  event_name : String
  endpoints : List String
  enabled : Bool
deriving Repr, DecidableEq

/-- HTTPConfig from config.py. -/
structure HTTPConfig where
  timeout : Nat
  retry_attempts : Nat
  retry_delay : Nat
deriving Repr, DecidableEq

/-- DiscordConfig from config.py: bot token and intent bitmask. -/
structure DiscordConfig where
  token : String
  intents : Int
deriving Repr, DecidableEq

/-- BridgeConfig from config.py (logging omitted: it does not influence
any behaviour modelled here). -/
structure BridgeConfig where
  discord : DiscordConfig
  http : HTTPConfig
  routes : List EventRoute
deriving Repr, DecidableEq

/-- BridgeConfig.get_routes_for_event: the list comprehension keeping
routes whose event_name matches and which are enabled, in order. -/
def BridgeConfig.get_routes_for_event (cfg : BridgeConfig) (event_name : String) :
    List EventRoute :=
  cfg.routes.filter (fun route => route.event_name == event_name && route.enabled)

/-! ## Timestamps

datetime.now(timezone.utc).isoformat() produces
YYYY-MM-DDTHH:MM:SS[.ffffff]+00:00, the fractional part being omitted
exactly when microsecond is zero. -/

/-- A UTC wall-clock instant as held by a Python aware datetime. -/
structure DateTime where
  year : Nat
  month : Nat
  day : Nat
  hour : Nat
  minute : Nat
  second : Nat
  microsecond : Nat
deriving Repr, DecidableEq

/-- The component ranges a real datetime object guarantees (day is
bounded by 31; the per-month bound is irrelevant to formatting). -/
def DateTime.Valid (dt : DateTime) : Prop :=
  1 ≤ dt.year ∧ dt.year ≤ 9999 ∧ 1 ≤ dt.month ∧ dt.month ≤ 12 ∧
  1 ≤ dt.day ∧ dt.day ≤ 31 ∧ dt.hour ≤ 23 ∧ dt.minute ≤ 59 ∧
  dt.second ≤ 59 ∧ dt.microsecond ≤ 999999

instance (dt : DateTime) : Decidable dt.Valid := by
  unfold DateTime.Valid; infer_instance

/-- Zero-padded fixed-width decimal rendering, most significant digit
first; width k renders n < 10 ^ k faithfully. -/
def padDigits : Nat → Nat → List Char
  | 0, _ => []
  | k + 1, n => Nat.digitChar (n / 10 ^ k) :: padDigits k (n % 10 ^ k)

/-- datetime.isoformat() of a UTC instant, as a character list. -/
def isoformatChars (dt : DateTime) : List Char :=
  padDigits 4 dt.year ++ '-' ::
  (padDigits 2 dt.month ++ '-' ::
  (padDigits 2 dt.day ++ 'T' ::
  (padDigits 2 dt.hour ++ ':' ::
  (padDigits 2 dt.minute ++ ':' ::
  (padDigits 2 dt.second ++
    ((if dt.microsecond = 0 then [] else '.' :: padDigits 6 dt.microsecond) ++
      ['+', '0', '0', ':', '0', '0']))))))

/-- datetime.isoformat() of a UTC instant, as a string. -/
def isoformatUTC (dt : DateTime) : String :=
  String.mk (isoformatChars dt)

/-- Read exactly k decimal digits, accumulating their value. -/
def readDigits : Nat → Nat → List Char → Option (Nat × List Char)
  | 0, acc, cs => some (acc, cs)
  | _ + 1, _, [] => none
  | k + 1, acc, c :: cs =>
    if c.isDigit then readDigits k (acc * 10 + (c.toNat - 48)) cs else none

/-- Consume one expected character. -/
def expectChar (c : Char) : List Char → Option (List Char)
  | d :: cs => if d = c then some cs else none
  | [] => none

/-- Consume an optional fractional-seconds part. -/
def skipFraction : List Char → Option (List Char)
  | '.' :: cs => (readDigits 6 0 cs).map (fun p => p.2)
  | cs => some cs

/-- Parse an ISO-8601 UTC instant of the shape isoformat produces,
returning the six leading components. -/
def parseISO (cs : List Char) : Option (Nat × Nat × Nat × Nat × Nat × Nat) := do
  let (y, cs) ← readDigits 4 0 cs
  let cs ← expectChar '-' cs
  let (mo, cs) ← readDigits 2 0 cs
  let cs ← expectChar '-' cs
  let (d, cs) ← readDigits 2 0 cs
  let cs ← expectChar 'T' cs
  let (h, cs) ← readDigits 2 0 cs
  let cs ← expectChar ':' cs
  let (mi, cs) ← readDigits 2 0 cs
  let cs ← expectChar ':' cs
  let (s, cs) ← readDigits 2 0 cs
  let cs ← skipFraction cs
  if cs = ['+', '0', '0', ':', '0', '0'] then
    some (y, mo, d, h, mi, s)
  else
    none

/-- A string is a valid ISO-8601 UTC instant when it parses in the
isoformat shape and its components are in range. -/
def isValidISO8601UTC (s : String) : Bool :=
  match parseISO s.toList with
  | some (y, mo, d, h, mi, sec) =>
    decide (1 ≤ y ∧ 1 ≤ mo ∧ mo ≤ 12 ∧ 1 ≤ d ∧ d ≤ 31 ∧ h ≤ 23 ∧ mi ≤ 59 ∧ sec ≤ 59)
  | none => false

/-! ## HTTP forwarder (router.py, HTTPForwarder) -/

/-- The JSON body built by forward_event: exactly the four fields
event_type, data, timestamp, source, in this order. -/
def envelope (event_type : String) (event_data : Json) (now : DateTime) : Json :=
  Json.obj
    [("event_type", Json.str event_type),
     ("data", event_data),
     ("timestamp", Json.str (isoformatUTC now)),
     ("source", Json.str "discord-bridge")]

/-- The headers forward_event sends with every POST. -/
def forwardHeaders : List (String × String) :=
  [("Content-Type", "application/json"),
   ("User-Agent", "discord-bridge/0.1.0")]

/-- Outcome of one POST attempt as observed by forward_event: a
response status, or one of the caught exception classes. -/
inductive AttemptOutcome where
  | status (code : Nat)
  | clientError
  | timeoutError
  | otherError
deriving Repr, DecidableEq

/-- An attempt succeeds exactly when a response arrived with status
below 400; every caught exception is a failed attempt. -/
def attemptSuccess : AttemptOutcome → Bool
  | .status code => decide (code < 400)
  | _ => false

/-- Observable trace of one forward_event call: the returned Bool, the
POSTs made (body and headers, in order), and the retry sleeps
performed (each entry is a sleep of retry_delay seconds, in order). -/
structure FwdTrace where
  result : Bool
  posts : List (Json × List (String × String))
  sleeps : List Nat
deriving Repr

/-- The retry loop of forward_event: fuel is the number of attempts
still allowed, i the index of the current attempt, outcome gives each
result of each attempt. A successful attempt returns immediately; a failed
attempt sleeps retry_delay only when another attempt remains. -/
def attemptsRun (post : Json × List (String × String)) (retry_delay : Nat)
    (outcome : Nat → AttemptOutcome) (i : Nat) : Nat → FwdTrace
  | 0 => ⟨false, [], []⟩
  | fuel + 1 =>
    if attemptSuccess (outcome i) then
      ⟨true, [post], []⟩
    else if fuel = 0 then
      ⟨false, [post], []⟩
    else
      let rest := attemptsRun post retry_delay outcome (i + 1) fuel
      ⟨rest.result, post :: rest.posts, retry_delay :: rest.sleeps⟩

/-- HTTPForwarder.forward_event. sessionStarted models whether
self.session is set (start() ran); when it is not, the function logs
and returns False without any attempt. Otherwise it builds the
envelope and headers once and runs up to retry_attempts attempts. -/
def forward_event (cfg : HTTPConfig) (sessionStarted : Bool)
    (event_type : String) (event_data : Json) (now : DateTime)
    (outcome : Nat → AttemptOutcome) : FwdTrace :=
  if sessionStarted then
    attemptsRun (envelope event_type event_data now, forwardHeaders)
      cfg.retry_delay outcome 0 cfg.retry_attempts
  else
    ⟨false, [], []⟩

/-! ## Event router (router.py, EventRouter) -/

/-- The stats dict of EventRouter. -/
structure RouterStats where
  events_received : Nat
  events_forwarded : Nat
  events_failed : Nat
  routes_processed : Nat
deriving Repr, DecidableEq

/-- Result of one _forward_to_endpoint task before its except clause:
either forward_event returned a Bool, or it raised. -/
inductive FwdResult where
  | ret (b : Bool)
  | exc
deriving Repr, DecidableEq

/-- _forward_to_endpoint: returns the forward_event result and converts
any raised exception to False. -/
def _forward_to_endpoint (r : FwdResult) : Bool :=
  match r with
  | .ret b => b
  | .exc => false

/-- EventRouter.handle_event, as a transformer of the stats dict. The
i-th launched (route, endpoint) task finishes with outcomes i. The
function increments events_received, returns early when no enabled
route matches, gathers one task per (route, endpoint) pair otherwise,
and updates the remaining counters only when at least one task was
launched. -/
def handle_event (cfg : BridgeConfig) (stats : RouterStats)
    (event_type : String) (outcomes : Nat → FwdResult) : RouterStats :=
  let stats1 := { stats with events_received := stats.events_received + 1 }
  let routes := cfg.get_routes_for_event event_type
  if routes.isEmpty then
    stats1
  else
    let tasks := routes.flatMap (fun route => route.endpoints)
    if tasks.isEmpty then
      stats1
    else
      let results := (List.range tasks.length).map (fun i => _forward_to_endpoint (outcomes i))
      let successes := results.count true
      let failures := results.length - successes
      { stats1 with
          events_forwarded := stats1.events_forwarded + successes,
          events_failed := stats1.events_failed + failures,
          routes_processed := stats1.routes_processed + 1 }

/-! ## Gateway session (gateway.py, GatewayClient) -/

/-- The mutable session fields of GatewayClient that the frame handler
touches. session_id and resume_gateway_url hold whatever JSON value the
READY payload carried (the code stores the raw dict lookup). -/
structure GatewayState where
  session_id : Option Json
  resume_gateway_url : Option Json
  last_sequence : Option Int
  running : Bool
deriving Repr

/-- An incoming Gateway frame as the decoded JSON dict exposes it to
_handle_event: op is event.get with key op, s and t likewise, and d
records whether the key d is present and with which value. -/
structure InEvent where
  op : Option Int
  s : Option Int
  t : Option String
  d : Option Json
deriving Repr

/-- An outbound frame: opcode and payload. -/
structure Payload where
  op : Int
  d : Json
deriving Repr

/-- The d field a heartbeat carries: the sequence number, or JSON null
before the first dispatch. -/
def jsonOfOptInt : Option Int → Json
  | none => Json.null
  | some n => Json.num n

/-- The heartbeat frame built by _heartbeat_loop on each iteration:
op 1 with the current last_sequence. -/
def heartbeatLoopFrame (st : GatewayState) : Payload :=
  ⟨1, jsonOfOptInt st.last_sequence⟩

/-- Everything one _handle_event call does: the state afterwards, the
frames sent, the sleeps performed (seconds), whether ConnectionClosed
was raised, and the dispatch-callback invocations made. -/
structure HandleOutcome where
  state : GatewayState
  sent : List Payload
  sleeps : List Nat
  closed : Bool
  handlerCalls : List (String × Json)
deriving Repr

/-- GatewayClient._handle_event. hasHandler models whether on_event
registered a callback. Opcode 0 overwrites last_sequence with the s
field, records session_id and resume_gateway_url on READY, and invokes
the callback (errors in it are swallowed). Opcode 1 sends a heartbeat
with the current last_sequence. Opcode 7 raises ConnectionClosed.
Opcode 9 sleeps 5 seconds, clearing session_id and last_sequence first
when the d payload is falsy. Opcode 11 and every unrecognized opcode
do nothing. -/
def _handle_event (hasHandler : Bool) (st : GatewayState) (ev : InEvent) :
    HandleOutcome :=
  match ev.op with
  | some 0 =>
    let event_data := ev.d.getD (Json.obj [])
    let st1 := { st with last_sequence := ev.s }
    let st2 :=
      if ev.t = some "READY" then
        { st1 with
            session_id := event_data.lookup "session_id",
            resume_gateway_url := event_data.lookup "resume_gateway_url" }
      else st1
    let calls :=
      match ev.t with
      | some name => if hasHandler ∧ name ≠ "" then [(name, event_data)] else []
      | none => []
    ⟨st2, [], [], false, calls⟩
  | some 1 =>
    ⟨st, [⟨1, jsonOfOptInt st.last_sequence⟩], [], false, []⟩
  | some 7 =>
    ⟨st, [], [], true, []⟩
  | some 9 =>
    let resumable := (ev.d.getD (Json.bool false)).truthy
    if resumable then
      ⟨st, [], [5], false, []⟩
    else
      ⟨{ st with session_id := none, last_sequence := none }, [], [5], false, []⟩
  | _ =>
    ⟨st, [], [], false, []⟩

/-- The IDENTIFY frame built by _identify: op 2 with token, intents and
the properties dict (os is the value of sys.platform on the host). -/
def identifyPayload (token : String) (intents : Int) (os : String) : Payload :=
  ⟨2, Json.obj
    [("token", Json.str token),
     ("intents", Json.num intents),
     ("properties", Json.obj
       [("$os", Json.str os),
        ("$browser", Json.str "discord-bridge"),
        ("$device", Json.str "discord-bridge")])]⟩

/-- The RESUME frame built by _resume: op 6 with token, the stored
session_id value and the stored sequence. -/
def resumePayload (token : String) (session_id : Json) (seq : Int) : Payload :=
  ⟨6, Json.obj
    [("token", Json.str token),
     ("session_id", session_id),
     ("seq", Json.num seq)]⟩

/-- The authentication step of _connect_and_run: resume when
session_id is truthy (Python if) and last_sequence is not None,
identify otherwise. -/
def authPayload (token : String) (intents : Int) (os : String)
    (st : GatewayState) : Payload :=
  if optTruthy st.session_id && st.last_sequence.isSome then
    resumePayload token (st.session_id.getD Json.null) (st.last_sequence.getD 0)
  else
    identifyPayload token intents os

/-- The check _connect_and_run applies to the first frame after the
WebSocket opens: anything but opcode 10 raises and aborts the attempt
(an absent op key raises as well, since the code indexes the dict). -/
def firstFrameOk (ev : InEvent) : Bool :=
  match ev.op with
  | some o => decide (o = 10)
  | none => false

/-- Processing a list of frames in receive order, as _event_loop does;
a raised ConnectionClosed breaks the loop. -/
def runEvents (hasHandler : Bool) (st : GatewayState) : List InEvent → GatewayState
  | [] => st
  | ev :: evs =>
    let out := _handle_event hasHandler st ev
    if out.closed then out.state else runEvents hasHandler out.state evs

/-- The successive last_sequence values after each processed frame. -/
def seqTrace (hasHandler : Bool) (st : GatewayState) : List InEvent → List (Option Int)
  | [] => []
  | ev :: evs =>
    let out := _handle_event hasHandler st ev
    out.state.last_sequence ::
      (if out.closed then [] else seqTrace hasHandler out.state evs)

/-- Order on nullable sequence numbers, null being the minimum. -/
def optLe : Option Int → Option Int → Bool
  | none, _ => true
  | some _, none => false
  | some a, some b => decide (a ≤ b)

/-- The incoming dispatch sequence fields are non-decreasing (null as
minimum), starting from the given current value. -/
def seqMonoB (cur : Option Int) : List InEvent → Bool
  | [] => true
  | ev :: evs =>
    if ev.op = some 0 then optLe cur ev.s && seqMonoB ev.s evs
    else seqMonoB cur evs

/-! ## Helper lemmas -/

lemma digitChar_isDigit (d : Nat) (h : d < 10) : (Nat.digitChar d).isDigit = true := by
  interval_cases d <;> decide

lemma digitChar_sub48 (d : Nat) (h : d < 10) : (Nat.digitChar d).toNat - 48 = d := by
  interval_cases d <;> decide

lemma readDigits_padDigits (k : Nat) :
    ∀ (n acc : Nat) (rest : List Char), n < 10 ^ k →
      readDigits k acc (padDigits k n ++ rest) = some (acc * 10 ^ k + n, rest) := by
  induction k with
  | zero =>
    intro n acc rest h
    interval_cases n
    simp [padDigits, readDigits]
  | succ k ih =>
    intro n acc rest h
    have hp : 0 < (10 : Nat) ^ k := Nat.pos_pow_of_pos k (by norm_num)
    have hd : n / 10 ^ k < 10 := by
      apply Nat.div_lt_of_lt_mul
      calc n < 10 ^ (k + 1) := h
        _ = 10 ^ k * 10 := by rw [pow_succ]
    have hmod : n % 10 ^ k < 10 ^ k := Nat.mod_lt _ hp
    simp only [padDigits, List.cons_append, readDigits]
    rw [digitChar_isDigit _ hd]
    simp only [if_true]
    rw [digitChar_sub48 _ hd, List.append_eq,
      ih (n % 10 ^ k) (acc * 10 + n / 10 ^ k) rest hmod]
    have harith : (acc * 10 + n / 10 ^ k) * 10 ^ k + n % 10 ^ k = acc * 10 ^ (k + 1) + n := by
      calc (acc * 10 + n / 10 ^ k) * 10 ^ k + n % 10 ^ k
          = acc * (10 ^ k * 10) + (10 ^ k * (n / 10 ^ k) + n % 10 ^ k) := by ring
        _ = acc * 10 ^ (k + 1) + n := by rw [Nat.div_add_mod, pow_succ]
    rw [harith]

lemma readDigits_padDigits0 (k n : Nat) (rest : List Char) (h : n < 10 ^ k) :
    readDigits k 0 (padDigits k n ++ rest) = some (n, rest) := by
  rw [readDigits_padDigits k n 0 rest h]
  simp

lemma parseISO_isoformatChars (dt : DateTime) (h : dt.Valid) :
    parseISO (isoformatChars dt) =
      some (dt.year, dt.month, dt.day, dt.hour, dt.minute, dt.second) := by
  obtain ⟨h1, h2, h3, h4, h5, h6, h7, h8, h9, h10⟩ := h
  have hy : dt.year < 10 ^ 4 := by norm_num; omega
  have hmo : dt.month < 10 ^ 2 := by norm_num; omega
  have hda : dt.day < 10 ^ 2 := by norm_num; omega
  have hh : dt.hour < 10 ^ 2 := by norm_num; omega
  have hmi : dt.minute < 10 ^ 2 := by norm_num; omega
  have hs : dt.second < 10 ^ 2 := by norm_num; omega
  have hus : dt.microsecond < 10 ^ 6 := by norm_num; omega
  unfold isoformatChars parseISO
  rw [readDigits_padDigits0 4 dt.year _ hy]
  simp only [Option.bind_eq_bind, Option.some_bind, expectChar, if_pos]
  rw [readDigits_padDigits0 2 dt.month _ hmo]
  simp only [Option.some_bind, expectChar, if_pos]
  rw [readDigits_padDigits0 2 dt.day _ hda]
  simp only [Option.some_bind, expectChar, if_pos]
  rw [readDigits_padDigits0 2 dt.hour _ hh]
  simp only [Option.some_bind, expectChar, if_pos]
  rw [readDigits_padDigits0 2 dt.minute _ hmi]
  simp only [Option.some_bind, expectChar, if_pos]
  rw [readDigits_padDigits0 2 dt.second _ hs]
  simp only [Option.some_bind]
  by_cases hz : dt.microsecond = 0
  · rw [if_pos hz]
    simp [skipFraction]
  · rw [if_neg hz]
    simp only [List.cons_append, skipFraction]
    rw [readDigits_padDigits0 6 dt.microsecond _ hus]
    simp

lemma attemptsRun_all_fail (post : Json × List (String × String)) (rd : Nat)
    (outcome : Nat → AttemptOutcome) :
    ∀ fuel i, (∀ j, j < fuel → attemptSuccess (outcome (i + j)) = false) →
      attemptsRun post rd outcome i fuel =
        ⟨false, List.replicate fuel post, List.replicate (fuel - 1) rd⟩ := by
  intro fuel
  induction fuel with
  | zero => intro i _; rfl
  | succ fuel ih =>
    intro i h
    have h0 : attemptSuccess (outcome i) = false := by
      have := h 0 (by omega); simpa using this
    unfold attemptsRun
    rw [h0]
    simp only [Bool.false_eq_true, if_false]
    by_cases hf : fuel = 0
    · subst hf; simp
    · rw [if_neg hf]
      rw [ih (i + 1) (fun j hj => by
        have := h (j + 1) (by omega)
        simpa [Nat.add_assoc, Nat.add_comm 1 j] using this)]
      have hrep : List.replicate (fuel + 1) post = post :: List.replicate fuel post :=
        List.replicate_succ post fuel
      have hrep2 : List.replicate (fuel + 1 - 1) rd = rd :: List.replicate (fuel - 1) rd := by
        have : fuel + 1 - 1 = (fuel - 1) + 1 := by omega
        rw [this, List.replicate_succ]
      rw [hrep, hrep2]

lemma attemptsRun_first_success (post : Json × List (String × String)) (rd : Nat)
    (outcome : Nat → AttemptOutcome) :
    ∀ j fuel i, j < fuel →
      attemptSuccess (outcome (i + j)) = true →
      (∀ l, l < j → attemptSuccess (outcome (i + l)) = false) →
      attemptsRun post rd outcome i fuel =
        ⟨true, List.replicate (j + 1) post, List.replicate j rd⟩ := by
  intro j
  induction j with
  | zero =>
    intro fuel i hj hs _
    obtain ⟨fuel, rfl⟩ : ∃ f, fuel = f + 1 := ⟨fuel - 1, by omega⟩
    unfold attemptsRun
    simp only [Nat.add_zero] at hs
    rw [hs]
    simp
  | succ j ih =>
    intro fuel i hj hs hl
    obtain ⟨fuel, rfl⟩ : ∃ f, fuel = f + 1 := ⟨fuel - 1, by omega⟩
    have h0 : attemptSuccess (outcome i) = false := by
      have := hl 0 (by omega); simpa using this
    have hfz : fuel ≠ 0 := by omega
    unfold attemptsRun
    rw [h0]
    simp only [Bool.false_eq_true, if_false]
    rw [if_neg hfz]
    rw [ih fuel (i + 1) (by omega)
      (by simpa [Nat.add_assoc, Nat.add_comm 1 j] using hs)
      (fun l hlt => by
        have := hl (l + 1) (by omega)
        simpa [Nat.add_assoc, Nat.add_comm 1 l] using this)]
    rw [List.replicate_succ rd j, List.replicate_succ post (j + 1)]

lemma attemptsRun_posts_mem (post : Json × List (String × String)) (rd : Nat)
    (outcome : Nat → AttemptOutcome) :
    ∀ fuel i p, p ∈ (attemptsRun post rd outcome i fuel).posts → p = post := by
  intro fuel
  induction fuel with
  | zero => intro i p hp; simp [attemptsRun] at hp
  | succ fuel ih =>
    intro i p hp
    unfold attemptsRun at hp
    by_cases hsucc : attemptSuccess (outcome i) = true
    · rw [hsucc] at hp; simp at hp; exact hp
    · rw [Bool.not_eq_true] at hsucc
      rw [hsucc] at hp
      simp only [Bool.false_eq_true, if_false] at hp
      by_cases hf : fuel = 0
      · rw [if_pos hf] at hp; simp at hp; exact hp
      · rw [if_neg hf] at hp
        simp only [List.mem_cons] at hp
        rcases hp with hp | hp
        · exact hp
        · exact ih (i + 1) p hp

lemma _handle_event_dispatch_state (hasHandler : Bool) (st : GatewayState) (ev : InEvent)
    (hop : ev.op = some 0) :
    (_handle_event hasHandler st ev).state.last_sequence = ev.s ∧
    (_handle_event hasHandler st ev).closed = false := by
  obtain ⟨o, s, t, d⟩ := ev
  simp only at hop
  subst hop
  simp only [_handle_event]
  constructor
  · by_cases ht : t = some "READY" <;> simp [ht]
  · trivial

/-! ## C1: sequence monotonicity -/

/-- C1 counterexample: _handle_event overwrites last_sequence with the
incoming s field unconditionally, so a dispatch frame carrying a
smaller sequence (here 3 after 5) makes last_sequence decrease,
refuting the claim that it is non-decreasing for every sequence of
dispatch frames. -/
theorem dispatch_sequence_decreases_counterexample :
    (GatewayState.mk none none (some 5) true).last_sequence = some 5 ∧
    (_handle_event false (GatewayState.mk none none (some 5) true)
      (InEvent.mk (some 0) (some 3) (some "MESSAGE_CREATE") (some (Json.obj [])))).state.last_sequence
      = some 3 ∧
    optLe (some 5) (some 3) = false := by
  refine ⟨rfl, rfl, rfl⟩

/-- C1 amended: within one connection, when the dispatch frames arrive
with non-decreasing sequence fields (null as minimum), the value of
last_sequence after each frame is at least its value before that
frame; in general _handle_event simply overwrites last_sequence with
the s field of each dispatch frame. -/
theorem dispatch_sequence_monotone_of_monotone_input (hasHandler : Bool)
    (st : GatewayState) (evs : List InEvent)
    (hops : ∀ ev ∈ evs, ev.op = some 0)
    (hmono : seqMonoB st.last_sequence evs = true) :
    List.Chain (fun a b => optLe a b = true) st.last_sequence
      (seqTrace hasHandler st evs) := by
  induction evs generalizing st with
  | nil => exact List.Chain.nil
  | cons ev evs ih =>
    have hop : ev.op = some 0 := hops ev (by simp)
    obtain ⟨hlast, hcl⟩ := _handle_event_dispatch_state hasHandler st ev hop
    rw [seqMonoB, if_pos hop, Bool.and_eq_true] at hmono
    obtain ⟨hstep, hrest⟩ := hmono
    rw [seqTrace]
    simp only [hcl, if_false, Bool.false_eq_true]
    refine List.Chain.cons (by rw [hlast]; exact hstep) ?_
    exact ih ((_handle_event hasHandler st ev).state)
      (fun e he => hops e (by simp [he]))
      (by rw [hlast]; exact hrest)

/-- C1 witness: a concrete monotone dispatch trace 7, 9, 9 from an
initial last_sequence of 5. -/
theorem dispatch_sequence_monotone_witness :
    List.Chain (fun a b => optLe a b = true) (some 5)
      (seqTrace true (GatewayState.mk none none (some 5) true)
        [InEvent.mk (some 0) (some 7) (some "MESSAGE_CREATE") (some (Json.obj [])),
         InEvent.mk (some 0) (some 9) (some "TYPING_START") none,
         InEvent.mk (some 0) (some 9) (some "MESSAGE_CREATE") (some (Json.obj []))]) :=
  dispatch_sequence_monotone_of_monotone_input true
    (GatewayState.mk none none (some 5) true)
    [InEvent.mk (some 0) (some 7) (some "MESSAGE_CREATE") (some (Json.obj [])),
     InEvent.mk (some 0) (some 9) (some "TYPING_START") none,
     InEvent.mk (some 0) (some 9) (some "MESSAGE_CREATE") (some (Json.obj []))]
    (by intro ev hev; fin_cases hev <;> rfl)
    (by rfl)

/-! ## C2: non-resumable invalid session -/

/-- C2 counterexample: on an op 9 frame whose d payload is false the
handler clears the session fields and sleeps, but it does not close
the connection (closed stays false, unlike the op 7 branch): the event
loop keeps reading frames until the server closes the socket. -/
theorem invalid_session_nonresumable_no_close_counterexample :
    (_handle_event false
      (GatewayState.mk (some (Json.str "s1")) none (some 10) true)
      (InEvent.mk (some 9) none none (some (Json.bool false)))).closed = false ∧
    (_handle_event false
      (GatewayState.mk (some (Json.str "s1")) none (some 10) true)
      (InEvent.mk (some 9) none none (some (Json.bool false)))).state.session_id = none ∧
    (_handle_event false
      (GatewayState.mk (some (Json.str "s1")) none (some 10) true)
      (InEvent.mk (some 9) none none (some (Json.bool false)))).state.last_sequence = none ∧
    (_handle_event false
      (GatewayState.mk (some (Json.str "s1")) none (some 10) true)
      (InEvent.mk (some 9) none none (some (Json.bool false)))).sleeps = [5] := by
  refine ⟨rfl, rfl, rfl, rfl⟩

/-- C2 amended: an op 9 frame with a falsy d payload clears session_id
and last_sequence and sleeps 5 seconds; it sends nothing and does not
itself close the connection (the event loop continues until the socket
closes); once a new connection cycle does start from the cleared
state, its authentication frame is IDENTIFY with opcode 2. -/
theorem invalid_session_nonresumable_clears_and_reidentifies
    (hasHandler : Bool) (st : GatewayState) (ev : InEvent)
    (token : String) (intents : Int) (os : String)
    (hop : ev.op = some 9)
    (hd : (ev.d.getD (Json.bool false)).truthy = false) :
    (_handle_event hasHandler st ev).state.session_id = none ∧
    (_handle_event hasHandler st ev).state.last_sequence = none ∧
    (_handle_event hasHandler st ev).sleeps = [5] ∧
    (_handle_event hasHandler st ev).sent = [] ∧
    (_handle_event hasHandler st ev).closed = false ∧
    authPayload token intents os (_handle_event hasHandler st ev).state =
      identifyPayload token intents os ∧
    (identifyPayload token intents os).op = 2 := by
  obtain ⟨o, s, t, d⟩ := ev
  simp only at hop hd
  subst hop
  simp [_handle_event, hd, authPayload, optTruthy, identifyPayload]

/-- C2 witness: the concrete scenario of spec section S5. -/
theorem invalid_session_nonresumable_witness :
    (_handle_event true
      (GatewayState.mk (some (Json.str "s1")) none (some 10) true)
      (InEvent.mk (some 9) none none (some (Json.bool false)))).state.session_id = none ∧
    (_handle_event true
      (GatewayState.mk (some (Json.str "s1")) none (some 10) true)
      (InEvent.mk (some 9) none none (some (Json.bool false)))).state.last_sequence = none ∧
    (_handle_event true
      (GatewayState.mk (some (Json.str "s1")) none (some 10) true)
      (InEvent.mk (some 9) none none (some (Json.bool false)))).sleeps = [5] ∧
    (_handle_event true
      (GatewayState.mk (some (Json.str "s1")) none (some 10) true)
      (InEvent.mk (some 9) none none (some (Json.bool false)))).sent = [] ∧
    (_handle_event true
      (GatewayState.mk (some (Json.str "s1")) none (some 10) true)
      (InEvent.mk (some 9) none none (some (Json.bool false)))).closed = false ∧
    authPayload "tokentokentoken" 513 "linux"
      (_handle_event true
        (GatewayState.mk (some (Json.str "s1")) none (some 10) true)
        (InEvent.mk (some 9) none none (some (Json.bool false)))).state =
      identifyPayload "tokentokentoken" 513 "linux" ∧
    (identifyPayload "tokentokentoken" 513 "linux").op = 2 :=
  invalid_session_nonresumable_clears_and_reidentifies true
    (GatewayState.mk (some (Json.str "s1")) none (some 10) true)
    (InEvent.mk (some 9) none none (some (Json.bool false)))
    "tokentokentoken" 513 "linux" rfl rfl

/-! ## C3: HELLO after the handshake -/

/-- C3 counterexample: an op 10 frame arriving in the running state is
not treated as an error at all: _handle_event leaves the state
untouched, sends nothing, sleeps nothing and does not close the
connection, refuting the closed-and-reconnect part of the claim. -/
theorem late_hello_counterexample :
    _handle_event false
      (GatewayState.mk none none (some 5) true)
      (InEvent.mk (some 10) none none
        (some (Json.obj [("heartbeat_interval", Json.num 41250)]))) =
    HandleOutcome.mk (GatewayState.mk none none (some 5) true) [] [] false [] := by
  rfl

/-- C3 amended: opcode 10 is required of the first frame after the
WebSocket opens (firstFrameOk accepts exactly opcode 10, anything else
makes _connect_and_run raise); but an op 10 frame received later by
_handle_event is silently ignored: no branch handles it, so the state
is unchanged, nothing is sent, there is no sleep and no close. -/
theorem late_hello_is_ignored (hasHandler : Bool) (st : GatewayState) (ev : InEvent)
    (hop : ev.op = some 10) :
    _handle_event hasHandler st ev = HandleOutcome.mk st [] [] false [] ∧
    firstFrameOk ev = true := by
  obtain ⟨o, s, t, d⟩ := ev
  simp only at hop
  subst hop
  exact ⟨rfl, rfl⟩

/-- C3 witness: a concrete late HELLO frame. -/
theorem late_hello_is_ignored_witness :
    _handle_event true
      (GatewayState.mk (some (Json.str "s1")) none (some 42) true)
      (InEvent.mk (some 10) none none
        (some (Json.obj [("heartbeat_interval", Json.num 41250)]))) =
    HandleOutcome.mk (GatewayState.mk (some (Json.str "s1")) none (some 42) true) [] [] false [] ∧
    firstFrameOk (InEvent.mk (some 10) none none
      (some (Json.obj [("heartbeat_interval", Json.num 41250)]))) = true :=
  late_hello_is_ignored true
    (GatewayState.mk (some (Json.str "s1")) none (some 42) true)
    (InEvent.mk (some 10) none none
      (some (Json.obj [("heartbeat_interval", Json.num 41250)]))) rfl

/-! ## C4: handle_event statistics -/

/-- A configuration whose only route matches but lists no endpoints;
the pydantic schema accepts an empty endpoint list. -/
def cfgEmptyEndpoints : BridgeConfig :=
  BridgeConfig.mk (DiscordConfig.mk "tokentokentoken" 513) (HTTPConfig.mk 30 3 1)
    [EventRoute.mk "MESSAGE_CREATE" [] true]

/-- C4 counterexample: with one matching enabled route whose endpoint
list is empty, handle_event launches no task, so routes_processed is
not incremented, refuting the claim that it increases by exactly 1
whenever at least one route matches. -/
theorem handle_event_empty_endpoints_counterexample :
    (cfgEmptyEndpoints.get_routes_for_event "MESSAGE_CREATE").length = 1 ∧
    (handle_event cfgEmptyEndpoints (RouterStats.mk 0 0 0 0) "MESSAGE_CREATE"
      (fun _ => FwdResult.ret true)).routes_processed = 0 ∧
    (handle_event cfgEmptyEndpoints (RouterStats.mk 0 0 0 0) "MESSAGE_CREATE"
      (fun _ => FwdResult.ret true)).events_received = 1 := by
  refine ⟨rfl, rfl, rfl⟩

/-- C4 amended: every call increments events_received by 1. A call
with no matching enabled route changes nothing else. A call whose
matched routes carry no endpoint at all also changes nothing else
(this is the correction: routes_processed stays put there). A call
with n > 0 (route, endpoint) pairs adds to events_forwarded the
number s of tasks that returned True, adds n - s to events_failed (a
task that raised counts there, via _forward_to_endpoint turning the
exception into False, so no exception escapes), increments
routes_processed by exactly 1, and in particular the increases of
events_forwarded and events_failed sum to n. -/
theorem handle_event_stats_spec (cfg : BridgeConfig) (stats : RouterStats)
    (event_type : String) (outcomes : Nat → FwdResult) :
    (handle_event cfg stats event_type outcomes).events_received =
      stats.events_received + 1
    ∧ (cfg.get_routes_for_event event_type = [] →
        handle_event cfg stats event_type outcomes =
          { stats with events_received := stats.events_received + 1 })
    ∧ ((cfg.get_routes_for_event event_type).flatMap (fun route => route.endpoints) = [] →
        handle_event cfg stats event_type outcomes =
          { stats with events_received := stats.events_received + 1 })
    ∧ (∀ n, n = ((cfg.get_routes_for_event event_type).flatMap
          (fun route => route.endpoints)).length →
       n ≠ 0 →
       ∀ s, s = ((List.range n).map (fun i => _forward_to_endpoint (outcomes i))).count true →
        (handle_event cfg stats event_type outcomes).events_forwarded =
          stats.events_forwarded + s
        ∧ (handle_event cfg stats event_type outcomes).events_failed =
          stats.events_failed + (n - s)
        ∧ (handle_event cfg stats event_type outcomes).routes_processed =
          stats.routes_processed + 1
        ∧ (handle_event cfg stats event_type outcomes).events_forwarded +
            (handle_event cfg stats event_type outcomes).events_failed =
          stats.events_forwarded + stats.events_failed + n) := by
  refine ⟨?_, ?_, ?_, ?_⟩
  · unfold handle_event
    by_cases h1 : (cfg.get_routes_for_event event_type).isEmpty
    · simp [h1]
    · simp only [h1, Bool.false_eq_true, if_false]
      by_cases h2 : ((cfg.get_routes_for_event event_type).flatMap
          (fun route => route.endpoints)).isEmpty
      · simp [h2]
      · simp [h2]
  · intro h
    unfold handle_event
    simp [List.isEmpty_iff, h]
  · intro h
    unfold handle_event
    by_cases h1 : (cfg.get_routes_for_event event_type).isEmpty
    · simp [h1]
    · simp only [h1, Bool.false_eq_true, if_false]
      simp [List.isEmpty_iff, h]
  · intro n hn hnz s hs
    have hroutes : ¬ (cfg.get_routes_for_event event_type).isEmpty := by
      intro hempty
      rw [List.isEmpty_iff] at hempty
      apply hnz
      rw [hn, hempty]
      rfl
    have htasks : ¬ ((cfg.get_routes_for_event event_type).flatMap
        (fun route => route.endpoints)).isEmpty = true := by
      intro hempty
      rw [List.isEmpty_iff] at hempty
      apply hnz
      rw [hn, hempty]
      rfl
    have hslen : s ≤ n := by
      rw [hs]
      calc ((List.range n).map (fun i => _forward_to_endpoint (outcomes i))).count true
          ≤ ((List.range n).map (fun i => _forward_to_endpoint (outcomes i))).length :=
            List.count_le_length true _
        _ = n := by simp
    unfold handle_event
    simp only [hroutes, htasks, Bool.false_eq_true, if_false]
    rw [← hn, ← hs]
    have hmaplen : ((List.range n).map (fun i => _forward_to_endpoint (outcomes i))).length = n := by
      simp
    rw [hmaplen]
    refine ⟨?_, ?_, ?_, ?_⟩ <;> first | rfl | trivial | omega

/-- A configuration with one enabled two-endpoint route for
MESSAGE_CREATE and one disabled route. -/
def cfgTwoEndpoints : BridgeConfig :=
  BridgeConfig.mk (DiscordConfig.mk "tokentokentoken" 513) (HTTPConfig.mk 30 3 1)
    [EventRoute.mk "MESSAGE_CREATE" ["http://a.example/hook", "http://b.example/hook"] true,
     EventRoute.mk "MESSAGE_CREATE" ["http://c.example/hook"] false]

/-- Task results where the first forward returns True and the second
raises. -/
def outOneSuccess : Nat → FwdResult :=
  fun i => if i = 0 then FwdResult.ret true else FwdResult.exc

/-- C4 witness: two endpoint pairs, one success and one raised task,
starting from counters 5, 2, 1, 3. -/
theorem handle_event_stats_witness :
    (handle_event cfgTwoEndpoints (RouterStats.mk 5 2 1 3) "MESSAGE_CREATE"
        outOneSuccess).events_forwarded = 2 + 1
    ∧ (handle_event cfgTwoEndpoints (RouterStats.mk 5 2 1 3) "MESSAGE_CREATE"
        outOneSuccess).events_failed = 1 + (2 - 1)
    ∧ (handle_event cfgTwoEndpoints (RouterStats.mk 5 2 1 3) "MESSAGE_CREATE"
        outOneSuccess).routes_processed = 3 + 1
    ∧ (handle_event cfgTwoEndpoints (RouterStats.mk 5 2 1 3) "MESSAGE_CREATE"
        outOneSuccess).events_forwarded +
      (handle_event cfgTwoEndpoints (RouterStats.mk 5 2 1 3) "MESSAGE_CREATE"
        outOneSuccess).events_failed = 2 + 1 + 2 :=
  (handle_event_stats_spec cfgTwoEndpoints (RouterStats.mk 5 2 1 3) "MESSAGE_CREATE"
    outOneSuccess).2.2.2 2 rfl (by decide) 1 rfl

/-! ## C5: retry budget and short-circuit success -/

/-- C5: with the HTTP session started, when every attempt fails
(status at least 400 or a caught exception) forward_event POSTs
exactly retry_attempts times, returns False, and sleeps retry_delay
after each attempt except the last (so retry_attempts - 1 sleeps and
none after the final attempt); and when the first success is attempt
j (counting from 0), it POSTs exactly j + 1 times, returns True
immediately and has slept only the j times preceding that attempt. -/
theorem forward_event_retry_budget (cfg : HTTPConfig) (event_type : String)
    (event_data : Json) (now : DateTime) (outcome : Nat → AttemptOutcome) :
    ((∀ i, i < cfg.retry_attempts → attemptSuccess (outcome i) = false) →
      forward_event cfg true event_type event_data now outcome =
        FwdTrace.mk false
          (List.replicate cfg.retry_attempts (envelope event_type event_data now, forwardHeaders))
          (List.replicate (cfg.retry_attempts - 1) cfg.retry_delay))
    ∧ (∀ j, j < cfg.retry_attempts →
        attemptSuccess (outcome j) = true →
        (∀ l, l < j → attemptSuccess (outcome l) = false) →
        forward_event cfg true event_type event_data now outcome =
          FwdTrace.mk true
            (List.replicate (j + 1) (envelope event_type event_data now, forwardHeaders))
            (List.replicate j cfg.retry_delay)) := by
  constructor
  · intro hfail
    unfold forward_event
    rw [if_pos rfl]
    exact attemptsRun_all_fail _ cfg.retry_delay outcome cfg.retry_attempts 0
      (fun j hj => by simpa using hfail j (by omega))
  · intro j hj hs hl
    unfold forward_event
    rw [if_pos rfl]
    exact attemptsRun_first_success _ cfg.retry_delay outcome j cfg.retry_attempts 0 hj
      (by simpa using hs) (fun l hlt => by simpa using hl l hlt)

/-- A concrete UTC instant used by the witnesses. -/
def utcExample : DateTime :=
  DateTime.mk 2026 10 12 8 30 15 123456

/-- C5 witness: the spec scenarios S3 (three failing attempts, three
POSTs, two sleeps, result False) and S2-like short circuit (failure
then success on attempt index 1: two POSTs, one sleep, result True). -/
theorem forward_event_retry_budget_witness :
    forward_event (HTTPConfig.mk 30 3 1) true "MESSAGE_CREATE" (Json.obj []) utcExample
      (fun _ => AttemptOutcome.status 500) =
      FwdTrace.mk false
        (List.replicate 3 (envelope "MESSAGE_CREATE" (Json.obj []) utcExample, forwardHeaders))
        (List.replicate 2 1)
    ∧ forward_event (HTTPConfig.mk 30 3 1) true "MESSAGE_CREATE" (Json.obj []) utcExample
      (fun i => if i = 0 then AttemptOutcome.status 500 else AttemptOutcome.status 204) =
      FwdTrace.mk true
        (List.replicate 2 (envelope "MESSAGE_CREATE" (Json.obj []) utcExample, forwardHeaders))
        (List.replicate 1 1) :=
  And.intro
    ((forward_event_retry_budget (HTTPConfig.mk 30 3 1) "MESSAGE_CREATE" (Json.obj [])
        utcExample (fun _ => AttemptOutcome.status 500)).1
      (fun i _ => by decide))
    ((forward_event_retry_budget (HTTPConfig.mk 30 3 1) "MESSAGE_CREATE" (Json.obj [])
        utcExample
        (fun i => if i = 0 then AttemptOutcome.status 500 else AttemptOutcome.status 204)).2
      1 (by decide) (by decide) (fun l hl => by interval_cases l; decide))

/-! ## C6: identify versus resume -/

/-- C6 counterexample: the resume condition is Python truthiness of
session_id, not a null check. With session_id the non-null empty
string and last_sequence set, the claim demands a RESUME frame with
opcode 6, but the code identifies: the authentication frame has
opcode 2. -/
theorem auth_choice_empty_session_id_counterexample :
    (GatewayState.mk (some (Json.str "")) none (some 5) true).session_id ≠ none ∧
    (GatewayState.mk (some (Json.str "")) none (some 5) true).last_sequence ≠ none ∧
    (authPayload "tokentokentoken" 513 "linux"
      (GatewayState.mk (some (Json.str "")) none (some 5) true)).op = 2 ∧
    (authPayload "tokentokentoken" 513 "linux"
      (GatewayState.mk (some (Json.str "")) none (some 5) true)).op ≠ 6 := by
  refine ⟨by simp, by simp, rfl, by decide⟩

/-- C6 amended: when session_id holds a truthy value (for a string,
non-empty) and last_sequence is non-null, the authentication step
sends the RESUME frame with opcode 6 carrying token, the stored
session_id and seq equal to last_sequence; otherwise (session_id
null or falsy, or last_sequence null) it sends the IDENTIFY frame
with opcode 2 carrying token, intents and the properties dict. -/
theorem auth_choice_spec (token : String) (intents : Int) (os : String)
    (st : GatewayState) :
    (∀ sid seq, st.session_id = some sid → sid.truthy = true →
      st.last_sequence = some seq →
      authPayload token intents os st =
        Payload.mk 6 (Json.obj
          [("token", Json.str token),
           ("session_id", sid),
           ("seq", Json.num seq)]))
    ∧ ((optTruthy st.session_id = false ∨ st.last_sequence = none) →
      authPayload token intents os st =
        Payload.mk 2 (Json.obj
          [("token", Json.str token),
           ("intents", Json.num intents),
           ("properties", Json.obj
             [("$os", Json.str os),
              ("$browser", Json.str "discord-bridge"),
              ("$device", Json.str "discord-bridge")])])) := by
  constructor
  · intro sid seq hsid htruthy hseq
    unfold authPayload
    rw [hsid, hseq]
    simp only [optTruthy, htruthy, Option.isSome_some, Bool.and_self, if_true]
    rfl
  · intro h
    unfold authPayload
    rcases h with h | h
    · rw [h]
      simp [identifyPayload]
    · rw [h]
      simp [identifyPayload]

/-- C6 witness: the spec scenario S4, session_id s1 and sequence 10
resume with opcode 6; and a cleared session identifies with opcode 2. -/
theorem auth_choice_witness :
    authPayload "tokentokentoken" 513 "linux"
      (GatewayState.mk (some (Json.str "s1")) none (some 10) true) =
      Payload.mk 6 (Json.obj
        [("token", Json.str "tokentokentoken"),
         ("session_id", Json.str "s1"),
         ("seq", Json.num 10)])
    ∧ authPayload "tokentokentoken" 513 "linux"
      (GatewayState.mk none none (some 10) true) =
      Payload.mk 2 (Json.obj
        [("token", Json.str "tokentokentoken"),
         ("intents", Json.num 513),
         ("properties", Json.obj
           [("$os", Json.str "linux"),
            ("$browser", Json.str "discord-bridge"),
            ("$device", Json.str "discord-bridge")])]) :=
  And.intro
    ((auth_choice_spec "tokentokentoken" 513 "linux"
        (GatewayState.mk (some (Json.str "s1")) none (some 10) true)).1
      (Json.str "s1") 10 rfl rfl rfl)
    ((auth_choice_spec "tokentokentoken" 513 "linux"
        (GatewayState.mk none none (some 10) true)).2
      (Or.inl rfl))

/-! ## C7: heartbeats carry the sequence -/

/-- C7: the immediate reply to an op 1 frame is a single frame with
opcode 1 whose d is the current last_sequence (JSON null before the
first dispatch), and the frame built by each heartbeat-loop iteration
has exactly the same shape. -/
theorem heartbeat_carries_last_sequence (hasHandler : Bool) (st : GatewayState)
    (ev : InEvent) (hop : ev.op = some 1) :
    (_handle_event hasHandler st ev).sent =
      [Payload.mk 1 (jsonOfOptInt st.last_sequence)]
    ∧ heartbeatLoopFrame st = Payload.mk 1 (jsonOfOptInt st.last_sequence)
    ∧ (∀ p ∈ (_handle_event hasHandler st ev).sent,
        p.op = 1 ∧ p.d = jsonOfOptInt st.last_sequence) := by
  obtain ⟨o, s, t, d⟩ := ev
  simp only at hop
  subst hop
  refine ⟨rfl, rfl, ?_⟩
  intro p hp
  simp only [_handle_event, List.mem_singleton] at hp
  subst hp
  exact ⟨rfl, rfl⟩

/-- C7 witness: the spec scenario S6, a heartbeat request at
last_sequence 99 answered by an op 1 frame with d equal to 99. -/
theorem heartbeat_carries_last_sequence_witness :
    (_handle_event true (GatewayState.mk (some (Json.str "s1")) none (some 99) true)
      (InEvent.mk (some 1) none none none)).sent =
      [Payload.mk 1 (jsonOfOptInt (some 99))]
    ∧ heartbeatLoopFrame (GatewayState.mk (some (Json.str "s1")) none (some 99) true) =
      Payload.mk 1 (jsonOfOptInt (some 99))
    ∧ (∀ p ∈ (_handle_event true (GatewayState.mk (some (Json.str "s1")) none (some 99) true)
        (InEvent.mk (some 1) none none none)).sent,
        p.op = 1 ∧ p.d = jsonOfOptInt (some 99)) :=
  heartbeat_carries_last_sequence true
    (GatewayState.mk (some (Json.str "s1")) none (some 99) true)
    (InEvent.mk (some 1) none none none) rfl

/-! ## C8: route lookup -/

/-- C8: get_routes_for_event returns exactly the routes whose
event_name matches and which are enabled: membership is
characterized, multiplicities are preserved, and the result is a
sublist of the configured routes, hence in definition order. -/
theorem get_routes_for_event_spec (cfg : BridgeConfig) (e : String) :
    (∀ r, r ∈ cfg.get_routes_for_event e ↔
        r ∈ cfg.routes ∧ r.event_name = e ∧ r.enabled = true)
    ∧ List.Sublist (cfg.get_routes_for_event e) cfg.routes
    ∧ (∀ r, (cfg.get_routes_for_event e).count r =
        if r.event_name = e ∧ r.enabled = true then cfg.routes.count r else 0) := by
  refine ⟨?_, ?_, ?_⟩
  · intro r
    unfold BridgeConfig.get_routes_for_event
    rw [List.mem_filter]
    simp [and_assoc]
  · exact List.filter_sublist _
  · intro r
    unfold BridgeConfig.get_routes_for_event
    by_cases hp : r.event_name = e ∧ r.enabled = true
    · rw [if_pos hp]
      exact List.count_filter (by simp [hp.1, hp.2])
    · rw [if_neg hp]
      rw [List.count_eq_zero]
      intro hmem
      rw [List.mem_filter] at hmem
      apply hp
      have := hmem.2
      simp only [Bool.and_eq_true, beq_iff_eq] at this
      exact this

/-- C8 witness: on a concrete configuration the enabled matching route
is returned and the disabled one is absent. -/
theorem get_routes_for_event_witness :
    EventRoute.mk "MESSAGE_CREATE" ["http://a.example/hook", "http://b.example/hook"] true
      ∈ cfgTwoEndpoints.get_routes_for_event "MESSAGE_CREATE"
    ∧ (cfgTwoEndpoints.get_routes_for_event "MESSAGE_CREATE").count
        (EventRoute.mk "MESSAGE_CREATE" ["http://c.example/hook"] false) = 0 :=
  And.intro
    (((get_routes_for_event_spec cfgTwoEndpoints "MESSAGE_CREATE").1
        (EventRoute.mk "MESSAGE_CREATE" ["http://a.example/hook", "http://b.example/hook"] true)).mpr
      ⟨by decide, rfl, rfl⟩)
    (((get_routes_for_event_spec cfgTwoEndpoints "MESSAGE_CREATE").2.2
        (EventRoute.mk "MESSAGE_CREATE" ["http://c.example/hook"] false)).trans
      (if_neg (by decide)))

/-! ## C9: envelope shape -/

/-- C9: every POST made by forward_event carries a JSON object with
exactly the fields event_type (the dispatch name), data (the payload
as received), timestamp (the isoformat of the build instant, a valid
ISO-8601 UTC string given a well-formed clock reading) and source
"discord-bridge", under Content-Type application/json and the fixed
User-Agent. -/
theorem forward_event_envelope_spec (cfg : HTTPConfig) (sessionStarted : Bool)
    (event_type : String) (event_data : Json) (now : DateTime)
    (outcome : Nat → AttemptOutcome) (hvalid : now.Valid) :
    ∀ p ∈ (forward_event cfg sessionStarted event_type event_data now outcome).posts,
      p.1 = Json.obj
        [("event_type", Json.str event_type),
         ("data", event_data),
         ("timestamp", Json.str (isoformatUTC now)),
         ("source", Json.str "discord-bridge")]
      ∧ isValidISO8601UTC (isoformatUTC now) = true
      ∧ p.2 = [("Content-Type", "application/json"),
               ("User-Agent", "discord-bridge/0.1.0")] := by
  have hiso : isValidISO8601UTC (isoformatUTC now) = true := by
    unfold isValidISO8601UTC isoformatUTC
    have hconv : (String.mk (isoformatChars now)).toList = isoformatChars now := rfl
    rw [hconv, parseISO_isoformatChars now hvalid]
    obtain ⟨h1, h2, h3, h4, h5, h6, h7, h8, h9, h10⟩ := hvalid
    simp only [decide_eq_true_eq]
    exact ⟨h1, h3, h4, h5, h6, h7, h8, h9⟩
  intro p hp
  cases sessionStarted with
  | false => simp [forward_event] at hp
  | true =>
    simp only [forward_event, if_true] at hp
    have hpost := attemptsRun_posts_mem
      (envelope event_type event_data now, forwardHeaders)
      cfg.retry_delay outcome cfg.retry_attempts 0 p hp
    subst hpost
    exact ⟨rfl, hiso, rfl⟩

/-- The concrete dispatch payload of spec scenario S1. -/
def dataExample : Json :=
  Json.obj [("id", Json.str "1")]

/-- C9 witness: the single POST of a one-attempt call carries the
expected body and headers, and its timestamp passes the checker. -/
theorem forward_event_envelope_witness :
    (envelope "MESSAGE_CREATE" dataExample utcExample, forwardHeaders).1 =
      Json.obj
        [("event_type", Json.str "MESSAGE_CREATE"),
         ("data", dataExample),
         ("timestamp", Json.str (isoformatUTC utcExample)),
         ("source", Json.str "discord-bridge")]
    ∧ isValidISO8601UTC (isoformatUTC utcExample) = true
    ∧ (envelope "MESSAGE_CREATE" dataExample utcExample, forwardHeaders).2 =
      [("Content-Type", "application/json"),
       ("User-Agent", "discord-bridge/0.1.0")] :=
  forward_event_envelope_spec (HTTPConfig.mk 30 1 1) true "MESSAGE_CREATE"
    dataExample utcExample (fun _ => AttemptOutcome.status 500) (by decide)
    (envelope "MESSAGE_CREATE" dataExample utcExample, forwardHeaders)
    (List.mem_singleton.mpr rfl)

/-! ## C10: forwarding before the session starts -/

/-- C10: when the HTTP session has not been started, forward_event
returns False immediately, making no POST and no sleep. -/
theorem forward_event_without_session (cfg : HTTPConfig) (event_type : String)
    (event_data : Json) (now : DateTime) (outcome : Nat → AttemptOutcome) :
    forward_event cfg false event_type event_data now outcome =
      FwdTrace.mk false [] [] :=
  rfl
